import Mathlib

/-!
Verification of `main_multiprocessing.py` (PDFTOJPG): a shallow embedding of
the `PDFExtractor` class and the module-level `extract_pdf_pages` wrapper.

The PDF rendering library (pypdfium2), the image encoder (PIL) and the
filesystem are opaque external capabilities; they are modelled by an
environment `Env` that records, for one extraction call, which external
operations succeed and which raise.  Exceptions are modelled explicitly:
each branch of the embedded code states which Python statement raised and
what the `try/except` blocks of the source do with it.  Resource handling
(document/page handles) is tracked by explicit open/close flags so that
the handle-release behaviour of every exit path is visible in the model.

String/path helpers follow the POSIX behaviour of `os.path` used by the
source (`basename`, `splitext`, `dirname`, `join`).
-/

/-- Models `os.path.basename` (POSIX): the part of the path after the last
slash. -/
def basename (p : String) : String :=
  String.mk ((p.data.reverse.takeWhile (fun c => c ≠ '/')).reverse)

/-- Models `os.path.splitext(name)[0]` for a `name` containing no slash
(the source applies it to `os.path.basename(pdf_path)`): drops the final
extension, where a dot belonging to the leading run of dots does not start
an extension (`".bashrc"` has no extension). -/
def splitextBase (name : String) : String :=
  let cs := name.data
  let leading := cs.takeWhile (fun c => c = '.')
  let rest := cs.drop leading.length
  if rest.contains '.' then
    let extLen := (cs.reverse.takeWhile (fun c => c ≠ '.')).length
    String.mk (cs.take (cs.length - extLen - 1))
  else name

/-- Models `os.path.dirname` (POSIX): the path up to the last slash,
with trailing slashes stripped unless the head is all slashes. -/
def dirname (p : String) : String :=
  let cs := p.data
  let i := cs.length - (cs.reverse.takeWhile (fun c => c ≠ '/')).length
  let head := cs.take i
  if head.isEmpty ∨ head.all (fun c => c = '/') then String.mk head
  else String.mk ((head.reverse.dropWhile (fun c => c = '/')).reverse)

/-- Models `os.path.join a b` (POSIX) for two components as used by the
source: if `b` is absolute it wins; otherwise `b` is appended to `a` with
a separating slash unless `a` is empty or already ends in a slash. -/
def osPathJoin (a b : String) : String :=
  if b.data.head? = some '/' then b
  else if a = "" then b
  else if a.data.getLast? = some '/' then a ++ b
  else a ++ "/" ++ b

/-- The decimal digit character for `d < 10`, as produced by Python's
`str` formatting of a nonnegative integer. -/
def digitChar (d : Nat) : Char := Char.ofNat (48 + d)

/-- Fuel-driven decimal rendering of a natural number: most significant
digit first; empty for `0` (the caller special-cases `0`). -/
def natToStringAux : Nat → Nat → List Char
  | _, 0 => []
  | 0, _ => []
  | fuel+1, n+1 => natToStringAux fuel ((n+1) / 10) ++ [digitChar ((n+1) % 10)]

/-- Models Python's `str(n)` / f-string interpolation of a nonnegative
integer: standard decimal representation. -/
def natToString (n : Nat) : String :=
  if n = 0 then "0" else String.mk (natToStringAux n n)

/-- The decimal value of a digit string (left fold); a left inverse of
`natToStringAux`, used to prove injectivity of `natToString`. -/
def digitVal (cs : List Char) : Nat :=
  cs.foldl (fun a c => 10 * a + (c.toNat - 48)) 0

/-- The filename generated for one page (source line
`f"{base_filename}_page{page_num+1}.jpg"`). -/
def pageFileName (base_filename : String) (page_num : Nat) : String :=
  base_filename ++ "_page" ++ natToString (page_num + 1) ++ ".jpg"

/-- The full output path for one page (source:
`os.path.join(output_dir, f"{base_filename}_page{page_num+1}.jpg")`). -/
def outputFilename (output_dir base_filename : String) (page_num : Nat) : String :=
  osPathJoin output_dir (pageFileName base_filename page_num)

/-- Environment of one extraction call: which external operations succeed.
`pageCount` is the page count of the document at `pdf_path`;
`renderFails i` / `saveFails i` say whether `page.render(...).to_pil()` /
`pil_img.save(...)` raises for page `i`; `workerOpenFails` whether
`pdfium2.PdfDocument(pdf_path)` raises inside a worker;
`probeOpenFails` / `probeLenFails` whether `pdfium2.PdfDocument` /
`len(pdfobj)` raises in the page-count probe; `cpuCount` is
`multiprocessing.cpu_count()`; `fileExists` is `os.path.exists(pdf_path)`. -/
structure Env where
  fileExists : Bool
  probeOpenFails : Bool
  probeLenFails : Bool
  pageCount : Nat
  workerOpenFails : Bool
  renderFails : Nat → Bool
  saveFails : Nat → Bool
  cpuCount : Nat

/-- The extractor object; its only state is the logging level fixed at
construction (`logging.INFO = 20` by default), which affects log output
only. -/
structure PDFExtractor where
  logLevel : Nat

/-- Python's `logging.INFO` constant. -/
def loggingINFO : Nat := 20

/-- Outcome of one `_extract_single_page` call: the returned value
(`some path` on success, `none` when the `except` handler returned
`None`), explicit open/close flags of the document and page handles, and
whether an exception escaped the call (`raised`). -/
structure SinglePageOutcome where
  result : Option String
  docOpened : Bool
  docClosed : Bool
  pageOpened : Bool
  pageClosed : Bool
  raised : Bool
deriving DecidableEq, Repr

/-- Embedding of `PDFExtractor._extract_single_page`.  The `try` block
opens the document, indexes the page (raising when `page_num` is out of
range), renders, saves, then closes the page and the document; the
`except Exception` handler logs and returns `None`.  Each failure branch
records which handles were open when the exception was raised: the
handler contains no close calls, so those handles stay open. -/
def PDFExtractor.extractSinglePage (_self : PDFExtractor) (env : Env)
    (_pdf_path output_dir base_filename : String) (page_num : Nat)
    (_scale : Nat) : SinglePageOutcome :=
  if env.workerOpenFails then
    -- `pdfium2.PdfDocument(pdf_path)` raised; caught; no handle was acquired
    ⟨none, false, false, false, false, false⟩
  else if env.pageCount ≤ page_num then
    -- `pdfobj[page_num]` raised; caught; the document handle stays open
    ⟨none, true, false, false, false, false⟩
  else if env.renderFails page_num then
    -- `page.render(scale=scale).to_pil()` raised; caught; both handles stay open
    ⟨none, true, false, true, false, false⟩
  else if env.saveFails page_num then
    -- `pil_img.save(output_filename, quality=95)` raised; caught; both stay open
    ⟨none, true, false, true, false, false⟩
  else
    -- success: the image is saved, then `page.close()` and `pdfobj.close()` run
    ⟨some (outputFilename output_dir base_filename page_num),
      true, true, true, true, false⟩

/-- Whether the page task for `page_num` fails (the `try` block of
`_extract_single_page` raises at some statement). -/
def pageTaskFails (env : Env) (page_num : Nat) : Bool :=
  env.workerOpenFails || decide (env.pageCount ≤ page_num)
    || env.renderFails page_num || env.saveFails page_num

/-- Exceptions that `extract_pdf_pages` lets propagate to its caller. -/
inductive ExtractError where
  /-- `FileNotFoundError(f"PDF file not found: {pdf_path}")` from the
  input validation. -/
  | fileNotFound (msg : String)
  /-- `pdfium2.PdfDocument(pdf_path)` raised during the page-count probe. -/
  | docOpenError
  /-- `len(pdfobj)` raised during the page-count probe. -/
  | pageCountError
deriving DecidableEq, Repr

/-- Observable result of one `extract_pdf_pages` call: the propagated
exception if any, the returned list, whether the "No images were
extracted" warning was logged, whether `os.makedirs` ran, the page
indices submitted to the pool, the per-task outcomes in submission
order, the pool size used, and the open/close state of the probe's
document handle. -/
structure RunResult where
  error : Option ExtractError
  images : List String
  warned : Bool
  dirCreated : Bool
  submitted : List Nat
  outcomes : List SinglePageOutcome
  poolSize : Nat
  probeOpened : Bool
  probeClosed : Bool
deriving DecidableEq, Repr

/-- Source line `output_dir = os.path.dirname(pdf_path) or '.'` when
`output_dir is None`, else the given directory. -/
def resolvedOutputDir (pdf_path : String) (output_dir : Option String) : String :=
  match output_dir with
  | some d => d
  | none => if dirname pdf_path = "" then "." else dirname pdf_path

/-- Source line
`base_filename = os.path.splitext(os.path.basename(pdf_path))[0]`. -/
def baseFilename (pdf_path : String) : String :=
  splitextBase (basename pdf_path)

/-- Source lines determining the worker count:
`max_workers = min(32, max(1, multiprocessing.cpu_count()))` when the
argument is `None`. -/
def effectiveWorkers (env : Env) (max_workers : Option Nat) : Nat :=
  match max_workers with
  | some w => w
  | none => min 32 (max 1 env.cpuCount)

/-- Embedding of `PDFExtractor.extract_pdf_pages`: validate the input
path (raising `FileNotFoundError` before anything else), resolve and
create the output directory, derive the base filename, probe the page
count (straight-line open / len / close, no `try`), select the page
indices (`range(total_pages) if extract_all else [0]`), size the pool,
map `_extract_single_page` over the pages (a `Pool.map`, which returns
results in submission order), and drop the `None` failures, warning when
nothing remains. -/
def PDFExtractor.extract_pdf_pages (self : PDFExtractor) (env : Env)
    (pdf_path : String) (output_dir : Option String) (scale : Nat)
    (extract_all : Bool) (max_workers : Option Nat) : RunResult :=
  if env.fileExists = false then
    -- `raise FileNotFoundError(...)`: nothing below runs
    { error := some (.fileNotFound ("PDF file not found: " ++ pdf_path)),
      images := [], warned := false, dirCreated := false, submitted := [],
      outcomes := [], poolSize := 0, probeOpened := false, probeClosed := false }
  else
    let odir := resolvedOutputDir pdf_path output_dir
    -- `os.makedirs(output_dir, exist_ok=True)` has run from here on
    let base := baseFilename pdf_path
    if env.probeOpenFails then
      -- `pdfium2.PdfDocument(pdf_path)` raised; propagates; no handle acquired
      { error := some .docOpenError, images := [], warned := false,
        dirCreated := true, submitted := [], outcomes := [], poolSize := 0,
        probeOpened := false, probeClosed := false }
    else if env.probeLenFails then
      -- `len(pdfobj)` raised; propagates; `pdfobj.close()` never runs
      { error := some .pageCountError, images := [], warned := false,
        dirCreated := true, submitted := [], outcomes := [], poolSize := 0,
        probeOpened := true, probeClosed := false }
    else
      let total_pages := env.pageCount
      let pages_to_extract : List Nat :=
        if extract_all then List.range total_pages else [0]
      let workers := effectiveWorkers env max_workers
      let outcomes := pages_to_extract.map
        (fun i => self.extractSinglePage env pdf_path odir base i scale)
      let extracted_images := outcomes.filterMap (fun o => o.result)
      { error := none, images := extracted_images,
        warned := extracted_images.isEmpty, dirCreated := true,
        submitted := pages_to_extract, outcomes := outcomes,
        poolSize := workers, probeOpened := true, probeClosed := true }

/-- Embedding of the module-level convenience function
`extract_pdf_pages`: builds a `PDFExtractor()` with the default log
level and forwards all five arguments positionally to the method. -/
def extract_pdf_pages (env : Env) (pdf_path : String)
    (output_dir : Option String) (scale : Nat) (extract_all : Bool)
    (max_workers : Option Nat) : RunResult :=
  (PDFExtractor.mk loggingINFO).extract_pdf_pages env pdf_path output_dir
    scale extract_all max_workers

/-- A concrete environment: an existing 3-page document where rendering
page index 1 raises and everything else succeeds; 8 processing units. -/
def envHappy : Env :=
  { fileExists := true, probeOpenFails := false, probeLenFails := false,
    pageCount := 3, workerOpenFails := false,
    renderFails := fun i => i == 1, saveFails := fun _ => false,
    cpuCount := 8 }

/-- A concrete environment: an existing 3-page document where every
external operation succeeds. -/
def envClean : Env :=
  { fileExists := true, probeOpenFails := false, probeLenFails := false,
    pageCount := 3, workerOpenFails := false,
    renderFails := fun _ => false, saveFails := fun _ => false,
    cpuCount := 8 }

/-- A concrete environment: an existing 2-page document where rendering
raises for every page. -/
def envAllFail : Env :=
  { fileExists := true, probeOpenFails := false, probeLenFails := false,
    pageCount := 2, workerOpenFails := false,
    renderFails := fun _ => true, saveFails := fun _ => false,
    cpuCount := 4 }

/-- A concrete environment whose source path does not exist. -/
def envNoFile : Env :=
  { fileExists := false, probeOpenFails := false, probeLenFails := false,
    pageCount := 3, workerOpenFails := false,
    renderFails := fun _ => false, saveFails := fun _ => false,
    cpuCount := 4 }

/-- A concrete environment: an existing document with zero pages. -/
def envEmpty : Env :=
  { fileExists := true, probeOpenFails := false, probeLenFails := false,
    pageCount := 0, workerOpenFails := false,
    renderFails := fun _ => false, saveFails := fun _ => false,
    cpuCount := 4 }

/-! ### Helper lemmas -/

theorem string_data_inj {s t : String} (h : s.data = t.data) : s = t := by
  cases s; cases t; simp_all

theorem data_append (s t : String) : (s ++ t).data = s.data ++ t.data := rfl

theorem toNat_digitChar : ∀ d, d < 10 → (digitChar d).toNat = 48 + d := by
  decide

theorem digitVal_append_digit (cs : List Char) (c : Char) :
    digitVal (cs ++ [c]) = 10 * digitVal cs + (c.toNat - 48) := by
  simp [digitVal, List.foldl_append]

theorem digitVal_natToStringAux :
    ∀ fuel n, n ≤ fuel → digitVal (natToStringAux fuel n) = n := by
  intro fuel
  induction fuel with
  | zero =>
    intro n hn
    have : n = 0 := Nat.le_zero.mp hn
    subst this
    rfl
  | succ f ih =>
    intro n hn
    match n with
    | 0 => rfl
    | m + 1 =>
      have hdiv : (m + 1) / 10 ≤ f := by
        have h1 : (m + 1) / 10 < m + 1 := Nat.div_lt_self (Nat.succ_pos m) (by norm_num)
        omega
      have hmod : (m + 1) % 10 < 10 := Nat.mod_lt _ (by norm_num)
      calc digitVal (natToStringAux (f + 1) (m + 1))
          = digitVal (natToStringAux f ((m + 1) / 10) ++ [digitChar ((m + 1) % 10)]) := rfl
        _ = 10 * digitVal (natToStringAux f ((m + 1) / 10))
              + ((digitChar ((m + 1) % 10)).toNat - 48) := digitVal_append_digit _ _
        _ = 10 * ((m + 1) / 10) + (m + 1) % 10 := by
              rw [ih _ hdiv, toNat_digitChar _ hmod]; omega
        _ = m + 1 := Nat.div_add_mod (m + 1) 10

theorem digitVal_natToString (k : Nat) : digitVal (natToString k).data = k := by
  by_cases hk : k = 0
  · subst hk; rfl
  · simp only [natToString, hk, if_false]
    exact digitVal_natToStringAux k k (Nat.le_refl k)

theorem natToString_inj {m n : Nat} (h : natToString m = natToString n) : m = n := by
  have hv : digitVal (natToString m).data = digitVal (natToString n).data := by rw [h]
  rwa [digitVal_natToString, digitVal_natToString] at hv

theorem pageFileName_inj (b : String) {i j : Nat}
    (h : pageFileName b i = pageFileName b j) : i = j := by
  have hd := congrArg String.data h
  simp only [pageFileName, data_append, List.append_assoc] at hd
  have h1 := List.append_cancel_left hd
  have h2 := List.append_cancel_left h1
  have h3 := List.append_cancel_right h2
  have h4 : natToString (i + 1) = natToString (j + 1) := string_data_inj h3
  have := natToString_inj h4
  omega

theorem head?_append_of_ne_nil {α} (B X : List α) (h : B ≠ []) :
    (B ++ X).head? = B.head? := by
  cases B with
  | nil => exact absurd rfl h
  | cons a t => rfl

theorem pageFileName_head (b : String) (i j : Nat) :
    (pageFileName b i).data.head? = (pageFileName b j).data.head? := by
  have hB : b.data ++ "_page".data ≠ [] := by
    intro h
    have := congrArg List.length h
    simp [data_append] at this
  have hi : (pageFileName b i).data
      = (b.data ++ "_page".data) ++ ((natToString (i + 1)).data ++ ".jpg".data) := by
    simp [pageFileName, data_append, List.append_assoc]
  have hj : (pageFileName b j).data
      = (b.data ++ "_page".data) ++ ((natToString (j + 1)).data ++ ".jpg".data) := by
    simp [pageFileName, data_append, List.append_assoc]
  rw [hi, hj, head?_append_of_ne_nil _ _ hB, head?_append_of_ne_nil _ _ hB]

theorem string_append_cancel_left {a b c : String} (h : a ++ b = a ++ c) : b = c := by
  apply string_data_inj
  have hd := congrArg String.data h
  simp only [data_append] at hd
  exact List.append_cancel_left hd

theorem osPathJoin_inj_right (a : String) {b1 b2 : String}
    (hh : b1.data.head? = b2.data.head?) (hne : b1 ≠ b2) :
    osPathJoin a b1 ≠ osPathJoin a b2 := by
  by_cases hc : b2.data.head? = some '/'
  · have hc1 : b1.data.head? = some '/' := hh.trans hc
    simpa [osPathJoin, hc, hc1] using hne
  · have hc1 : ¬ b1.data.head? = some '/' := fun h1 => hc (hh ▸ h1)
    by_cases ha : a = ""
    · simpa [osPathJoin, hc, hc1, ha] using hne
    · by_cases hl : a.data.getLast? = some '/'
      · simp only [osPathJoin, hc, hc1, ha, hl, if_neg, if_pos, if_false, if_true]
        intro he
        exact hne (string_append_cancel_left he)
      · simp only [osPathJoin, hc, hc1, ha, hl, if_neg, if_pos, if_false, if_true]
        intro he
        exact hne (string_append_cancel_left (string_append_cancel_left
          (by simpa [String.append_assoc] using he)))

theorem outputFilename_inj (d b : String) {i j : Nat} (h : i ≠ j) :
    outputFilename d b i ≠ outputFilename d b j := by
  have hne : pageFileName b i ≠ pageFileName b j := fun he => h (pageFileName_inj b he)
  exact osPathJoin_inj_right d (pageFileName_head b i j) hne

theorem extractSinglePage_result (x : PDFExtractor) (env : Env)
    (p d b : String) (i s : Nat) :
    (x.extractSinglePage env p d b i s).result =
      if pageTaskFails env i then none else some (outputFilename d b i) := by
  simp only [PDFExtractor.extractSinglePage, pageTaskFails]
  by_cases h1 : env.workerOpenFails <;> by_cases h2 : env.pageCount ≤ i <;>
    by_cases h3 : env.renderFails i <;> by_cases h4 : env.saveFails i <;>
    simp [h1, h2, h3, h4]

theorem extractSinglePage_raised (x : PDFExtractor) (env : Env)
    (p d b : String) (i s : Nat) :
    (x.extractSinglePage env p d b i s).raised = false := by
  simp only [PDFExtractor.extractSinglePage]
  by_cases h1 : env.workerOpenFails <;> by_cases h2 : env.pageCount ≤ i <;>
    by_cases h3 : env.renderFails i <;> by_cases h4 : env.saveFails i <;>
    simp [h1, h2, h3, h4]

theorem extractSinglePage_success (x : PDFExtractor) (env : Env)
    (p d b : String) (i s : Nat) (h : pageTaskFails env i = false) :
    x.extractSinglePage env p d b i s =
      ⟨some (outputFilename d b i), true, true, true, true, false⟩ := by
  simp only [pageTaskFails, Bool.or_eq_false_iff, decide_eq_false_iff_not] at h
  obtain ⟨⟨⟨h1, h2⟩, h3⟩, h4⟩ := h
  simp [PDFExtractor.extractSinglePage, h1, h2, h3, h4]

theorem extractSinglePage_leak (x : PDFExtractor) (env : Env)
    (p d b : String) (i s : Nat) (hopen : env.workerOpenFails = false)
    (hfail : pageTaskFails env i = true) :
    (x.extractSinglePage env p d b i s).docOpened = true ∧
    (x.extractSinglePage env p d b i s).docClosed = false := by
  simp only [pageTaskFails, hopen, Bool.false_or, Bool.or_eq_true,
    decide_eq_true_eq] at hfail
  simp only [PDFExtractor.extractSinglePage, hopen, Bool.false_eq_true,
    if_false]
  by_cases h2 : env.pageCount ≤ i
  · simp [h2]
  · simp only [h2, if_false]
    rcases hfail with (h | h) | h
    · exact absurd h h2
    · simp [h]
    · by_cases h3 : env.renderFails i <;> simp [h3, h]

theorem filterMap_ite {α : Type} (l : List Nat) (p : Nat → Bool) (f : Nat → α) :
    (l.filterMap fun i => if p i then none else some (f i)) =
      (l.filter fun i => !p i).map f := by
  induction l with
  | nil => rfl
  | cons a t ih =>
    cases h : p a <;> simp [List.filterMap_cons, List.filter_cons, h, ih]

theorem run_error_none (x : PDFExtractor) (env : Env) (p : String)
    (o : Option String) (s : Nat) (ea : Bool) (w : Option Nat)
    (hf : env.fileExists = true) (ho : env.probeOpenFails = false)
    (hl : env.probeLenFails = false) :
    (x.extract_pdf_pages env p o s ea w).error = none := by
  simp [PDFExtractor.extract_pdf_pages, hf, ho, hl]

theorem run_submitted (x : PDFExtractor) (env : Env) (p : String)
    (o : Option String) (s : Nat) (ea : Bool) (w : Option Nat)
    (hf : env.fileExists = true) (ho : env.probeOpenFails = false)
    (hl : env.probeLenFails = false) :
    (x.extract_pdf_pages env p o s ea w).submitted =
      if ea then List.range env.pageCount else [0] := by
  simp [PDFExtractor.extract_pdf_pages, hf, ho, hl]

theorem run_outcomes (x : PDFExtractor) (env : Env) (p : String)
    (o : Option String) (s : Nat) (ea : Bool) (w : Option Nat)
    (hf : env.fileExists = true) (ho : env.probeOpenFails = false)
    (hl : env.probeLenFails = false) :
    (x.extract_pdf_pages env p o s ea w).outcomes =
      (if ea then List.range env.pageCount else [0]).map
        (fun i => x.extractSinglePage env p (resolvedOutputDir p o)
          (baseFilename p) i s) := by
  simp [PDFExtractor.extract_pdf_pages, hf, ho, hl]

theorem run_images (x : PDFExtractor) (env : Env) (p : String)
    (o : Option String) (s : Nat) (ea : Bool) (w : Option Nat)
    (hf : env.fileExists = true) (ho : env.probeOpenFails = false)
    (hl : env.probeLenFails = false) :
    (x.extract_pdf_pages env p o s ea w).images =
      ((if ea then List.range env.pageCount else [0]).filter
          (fun i => !pageTaskFails env i)).map
        (outputFilename (resolvedOutputDir p o) (baseFilename p)) := by
  have h : (x.extract_pdf_pages env p o s ea w).images =
      ((if ea then List.range env.pageCount else [0]).map
        (fun i => x.extractSinglePage env p (resolvedOutputDir p o)
          (baseFilename p) i s)).filterMap (fun oc => oc.result) := by
    simp [PDFExtractor.extract_pdf_pages, hf, ho, hl]
  rw [h, List.filterMap_map]
  have h2 : ((fun oc : SinglePageOutcome => oc.result) ∘
      (fun i => x.extractSinglePage env p (resolvedOutputDir p o)
        (baseFilename p) i s)) =
      fun i => if pageTaskFails env i then none
        else some (outputFilename (resolvedOutputDir p o) (baseFilename p) i) := by
    funext i
    exact extractSinglePage_result x env p (resolvedOutputDir p o)
      (baseFilename p) i s
  rw [h2, filterMap_ite]

theorem run_warned (x : PDFExtractor) (env : Env) (p : String)
    (o : Option String) (s : Nat) (ea : Bool) (w : Option Nat)
    (hf : env.fileExists = true) (ho : env.probeOpenFails = false)
    (hl : env.probeLenFails = false) :
    (x.extract_pdf_pages env p o s ea w).warned =
      (x.extract_pdf_pages env p o s ea w).images.isEmpty := by
  simp [PDFExtractor.extract_pdf_pages, hf, ho, hl]

theorem run_poolSize (x : PDFExtractor) (env : Env) (p : String)
    (o : Option String) (s : Nat) (ea : Bool) (w : Option Nat)
    (hf : env.fileExists = true) (ho : env.probeOpenFails = false)
    (hl : env.probeLenFails = false) :
    (x.extract_pdf_pages env p o s ea w).poolSize = effectiveWorkers env w := by
  simp [PDFExtractor.extract_pdf_pages, hf, ho, hl]

theorem run_probe_closed (x : PDFExtractor) (env : Env) (p : String)
    (o : Option String) (s : Nat) (ea : Bool) (w : Option Nat)
    (hf : env.fileExists = true) (ho : env.probeOpenFails = false)
    (hl : env.probeLenFails = false) :
    (x.extract_pdf_pages env p o s ea w).probeOpened = true ∧
    (x.extract_pdf_pages env p o s ea w).probeClosed = true := by
  constructor <;> simp [PDFExtractor.extract_pdf_pages, hf, ho, hl]

theorem run_probe_len_leak (x : PDFExtractor) (env : Env) (p : String)
    (o : Option String) (s : Nat) (ea : Bool) (w : Option Nat)
    (hf : env.fileExists = true) (ho : env.probeOpenFails = false)
    (hl : env.probeLenFails = true) :
    (x.extract_pdf_pages env p o s ea w).error = some .pageCountError ∧
    (x.extract_pdf_pages env p o s ea w).probeOpened = true ∧
    (x.extract_pdf_pages env p o s ea w).probeClosed = false := by
  refine ⟨?_, ?_, ?_⟩ <;> simp [PDFExtractor.extract_pdf_pages, hf, ho, hl]

/-! ### Claims -/

/-- C1 (counterexample): the claim says `_extract_single_page` closes its
page and document handles before returning on both the success and the
failure path.  In this environment rendering page 1 raises, the `except`
handler returns the failure marker, and neither the page handle nor the
document handle has been closed: an exit path that leaks both handles. -/
theorem c1_handle_leak_counterexample :
    (PDFExtractor.mk 20).extractSinglePage envHappy "a/doc.pdf" "a" "doc" 1 4 =
      { result := none, docOpened := true, docClosed := false,
        pageOpened := true, pageClosed := false, raised := false } := by
  rfl

/-- C1 (amended): handle release holds only on the non-raising paths.
`_extract_single_page` closes the page and document handles before
returning on the success path, but on the exception path it returns the
failure marker with the document handle (and the page handle, if it was
opened) left unclosed; the page-count probe of `extract_pdf_pages` closes
its handle when reading the count succeeds, but would leak it if the
count read raised, since the probe is straight-line code with no
`finally`. -/
theorem c1_handle_release_amended (x : PDFExtractor) (env : Env)
    (p d b : String) (i s : Nat) :
    (pageTaskFails env i = false →
      x.extractSinglePage env p d b i s =
        { result := some (outputFilename d b i), docOpened := true,
          docClosed := true, pageOpened := true, pageClosed := true,
          raised := false }) ∧
    (env.workerOpenFails = false → pageTaskFails env i = true →
      (x.extractSinglePage env p d b i s).docOpened = true ∧
      (x.extractSinglePage env p d b i s).docClosed = false) ∧
    (∀ o sc ea w, env.fileExists = true → env.probeOpenFails = false →
      env.probeLenFails = false →
      (x.extract_pdf_pages env p o sc ea w).probeOpened = true ∧
      (x.extract_pdf_pages env p o sc ea w).probeClosed = true) ∧
    (∀ o sc ea w, env.fileExists = true → env.probeOpenFails = false →
      env.probeLenFails = true →
      (x.extract_pdf_pages env p o sc ea w).probeOpened = true ∧
      (x.extract_pdf_pages env p o sc ea w).probeClosed = false) :=
  ⟨fun h => extractSinglePage_success x env p d b i s h,
   fun h1 h2 => extractSinglePage_leak x env p d b i s h1 h2,
   fun o sc ea w hf ho hl => run_probe_closed x env p o sc ea w hf ho hl,
   fun o sc ea w hf ho hl =>
     ⟨(run_probe_len_leak x env p o sc ea w hf ho hl).2.1,
      (run_probe_len_leak x env p o sc ea w hf ho hl).2.2⟩⟩

/-- C1 (amended, witness): in a concrete environment the success path on
page 0 closes both handles, the failing page 1 leaves the document
handle open, and the probe of a successful call closes its handle. -/
theorem c1_handle_release_amended_witness :
    (PDFExtractor.mk 20).extractSinglePage envHappy "a/doc.pdf" "a" "doc" 0 4 =
      { result := some (outputFilename "a" "doc" 0), docOpened := true,
        docClosed := true, pageOpened := true, pageClosed := true,
        raised := false } ∧
    ((PDFExtractor.mk 20).extractSinglePage envHappy "a/doc.pdf" "a" "doc" 1 4).docClosed
      = false ∧
    ((PDFExtractor.mk 20).extract_pdf_pages envHappy "a/doc.pdf" none 4 true none).probeClosed
      = true :=
  ⟨(c1_handle_release_amended (PDFExtractor.mk 20) envHappy "a/doc.pdf" "a"
      "doc" 0 4).1 (by decide),
   ((c1_handle_release_amended (PDFExtractor.mk 20) envHappy "a/doc.pdf" "a"
      "doc" 1 4).2.1 rfl (by decide)).2,
   ((c1_handle_release_amended (PDFExtractor.mk 20) envHappy "a/doc.pdf" "a"
      "doc" 1 4).2.2.1 none 4 true none rfl rfl rfl).2⟩

/-- C2: when the page task for index `j` raises anywhere inside the `try`
block, `_extract_single_page` catches it and returns the failure marker
(`None`) without propagating; a call to `extract_pdf_pages` in that
environment still returns normally and the failed page's output path is
absent from the returned list; and the outcome of every other page index
is unaffected by how the environment behaves on page `j`. -/
theorem c2_page_failure_contained (x : PDFExtractor) (env : Env)
    (p d b : String) (s j : Nat) (hfail : pageTaskFails env j = true) :
    (x.extractSinglePage env p d b j s).result = none ∧
    (x.extractSinglePage env p d b j s).raised = false ∧
    (∀ o sc ea w, env.fileExists = true → env.probeOpenFails = false →
      env.probeLenFails = false →
      (x.extract_pdf_pages env p o sc ea w).error = none ∧
      outputFilename (resolvedOutputDir p o) (baseFilename p) j ∉
        (x.extract_pdf_pages env p o sc ea w).images) ∧
    (∀ env' : Env, env'.workerOpenFails = env.workerOpenFails →
      env'.pageCount = env.pageCount →
      (∀ i, i ≠ j → env'.renderFails i = env.renderFails i) →
      (∀ i, i ≠ j → env'.saveFails i = env.saveFails i) →
      ∀ i, i ≠ j →
        x.extractSinglePage env' p d b i s = x.extractSinglePage env p d b i s) := by
  refine ⟨?_, extractSinglePage_raised x env p d b j s, ?_, ?_⟩
  · rw [extractSinglePage_result]
    simp [hfail]
  · intro o sc ea w hf ho hl
    refine ⟨run_error_none x env p o sc ea w hf ho hl, ?_⟩
    rw [run_images x env p o sc ea w hf ho hl]
    intro hmem
    rcases List.mem_map.mp hmem with ⟨i, hi, hface⟩
    have hij : i = j := by
      by_contra hne
      exact outputFilename_inj _ _ hne hface
    subst hij
    have hkeep := (List.mem_filter.mp hi).2
    simp [hfail] at hkeep
  · intro env' hw hpc hrf hsf i hij
    simp only [PDFExtractor.extractSinglePage, hw, hpc, hrf i hij, hsf i hij]

/-- C2 (witness): with page 1 of a 3-page document failing to render, the
task result is `None`, the call returns without error, and page 1's
output path is not in the returned list. -/
theorem c2_page_failure_contained_witness :
    ((PDFExtractor.mk 20).extractSinglePage envHappy "a/doc.pdf" "a" "doc" 1 4).result
      = none ∧
    ((PDFExtractor.mk 20).extract_pdf_pages envHappy "a/doc.pdf" none 4 true none).error
      = none ∧
    outputFilename (resolvedOutputDir "a/doc.pdf" none) (baseFilename "a/doc.pdf") 1 ∉
      ((PDFExtractor.mk 20).extract_pdf_pages envHappy "a/doc.pdf" none 4 true none).images :=
  ⟨(c2_page_failure_contained (PDFExtractor.mk 20) envHappy "a/doc.pdf" "a"
      "doc" 4 1 (by decide)).1,
   ((c2_page_failure_contained (PDFExtractor.mk 20) envHappy "a/doc.pdf" "a"
      "doc" 4 1 (by decide)).2.2.1 none 4 true none rfl rfl rfl).1,
   ((c2_page_failure_contained (PDFExtractor.mk 20) envHappy "a/doc.pdf" "a"
      "doc" 4 1 (by decide)).2.2.1 none 4 true none rfl rfl rfl).2⟩

/-- C3: the returned list is exactly the output paths of the successful
page tasks, in task-submission order (the pool's `map` preserves input
order); with `extract_all = true` the submitted indices are
`0, 1, ..., total_pages - 1`, so the successful indices — hence the page
numbers embedded in the returned paths — are strictly ascending, and
failed pages are dropped with no gap marker (the list contains only
success paths). -/
theorem c3_result_order (x : PDFExtractor) (env : Env) (p : String)
    (o : Option String) (s : Nat) (w : Option Nat)
    (hf : env.fileExists = true) (ho : env.probeOpenFails = false)
    (hl : env.probeLenFails = false) :
    (∀ ea, (x.extract_pdf_pages env p o s ea w).images =
      ((x.extract_pdf_pages env p o s ea w).submitted.filter
          (fun i => !pageTaskFails env i)).map
        (outputFilename (resolvedOutputDir p o) (baseFilename p))) ∧
    ((x.extract_pdf_pages env p o s true w).submitted =
      List.range env.pageCount) ∧
    (∀ ea, ((x.extract_pdf_pages env p o s ea w).submitted.filter
        (fun i => !pageTaskFails env i)).Pairwise (· < ·)) := by
  refine ⟨fun ea => ?_, ?_, fun ea => ?_⟩
  · rw [run_images x env p o s ea w hf ho hl,
      run_submitted x env p o s ea w hf ho hl]
  · rw [run_submitted x env p o s true w hf ho hl]
    rfl
  · rw [run_submitted x env p o s ea w hf ho hl]
    cases ea with
    | false => exact (List.pairwise_singleton _ _).sublist (List.filter_sublist _)
    | true => exact (List.pairwise_lt_range _).sublist (List.filter_sublist _)

/-- C3 (witness): for a 3-page document whose page 1 fails, the returned
list is the successful submitted indices (0 and 2) mapped to their
output paths, in submission order. -/
theorem c3_result_order_witness :
    ((PDFExtractor.mk 20).extract_pdf_pages envHappy "a/doc.pdf" none 4 true none).images =
      (((PDFExtractor.mk 20).extract_pdf_pages envHappy "a/doc.pdf" none 4 true none).submitted.filter
          (fun i => !pageTaskFails envHappy i)).map
        (outputFilename (resolvedOutputDir "a/doc.pdf" none) (baseFilename "a/doc.pdf")) :=
  (c3_result_order (PDFExtractor.mk 20) envHappy "a/doc.pdf" none 4 none
    rfl rfl rfl).1 true

/-- C4: the page indices submitted to the pool are exactly `[0]` when
`extract_all` is false (whatever the page count), and exactly
`[0, 1, ..., total_pages - 1]` when `extract_all` is true: the submitted
list then has length `total_pages`, contains precisely the indices below
`total_pages`, and is strictly ascending. -/
theorem c4_page_selection (x : PDFExtractor) (env : Env) (p : String)
    (o : Option String) (s : Nat) (w : Option Nat)
    (hf : env.fileExists = true) (ho : env.probeOpenFails = false)
    (hl : env.probeLenFails = false) :
    ((x.extract_pdf_pages env p o s false w).submitted = [0]) ∧
    ((x.extract_pdf_pages env p o s true w).submitted.length = env.pageCount) ∧
    (∀ i, i ∈ (x.extract_pdf_pages env p o s true w).submitted ↔
      i < env.pageCount) ∧
    ((x.extract_pdf_pages env p o s true w).submitted.Pairwise (· < ·)) := by
  rw [run_submitted x env p o s false w hf ho hl,
    run_submitted x env p o s true w hf ho hl]
  refine ⟨rfl, ?_, fun i => ?_, ?_⟩
  · simp
  · simp [List.mem_range]
  · exact List.pairwise_lt_range _

/-- C4 (witness): for a 3-page document, `extract_all = false` submits
`[0]` and `extract_all = true` submits three indices. -/
theorem c4_page_selection_witness :
    ((PDFExtractor.mk 20).extract_pdf_pages envClean "doc.pdf" none 4 false none).submitted
      = [0] ∧
    ((PDFExtractor.mk 20).extract_pdf_pages envClean "doc.pdf" none 4 true none).submitted.length
      = envClean.pageCount :=
  ⟨(c4_page_selection (PDFExtractor.mk 20) envClean "doc.pdf" none 4 none
      rfl rfl rfl).1,
   (c4_page_selection (PDFExtractor.mk 20) envClean "doc.pdf" none 4 none
      rfl rfl rfl).2.1⟩

/-- C5: on success the page task returns exactly
`os.path.join(output_dir, f"{base_filename}_page{page_num+1}.jpg")` — a
deterministic function of the output directory, the base filename and
the page index alone — and distinct page indices always produce distinct
output paths. -/
theorem c5_output_naming (x : PDFExtractor) (env : Env) (p d b : String)
    (s i : Nat) (hok : pageTaskFails env i = false) :
    (x.extractSinglePage env p d b i s).result =
      some (osPathJoin d (b ++ "_page" ++ natToString (i + 1) ++ ".jpg")) ∧
    (∀ j, i ≠ j → outputFilename d b i ≠ outputFilename d b j) := by
  constructor
  · rw [extractSinglePage_result]
    simp [hok, outputFilename, pageFileName]
  · exact fun j hne => outputFilename_inj d b hne

/-- C5 (witness): page 0 of a clean document yields
`./doc_page1.jpg`-shaped output, and pages 0 and 1 have distinct paths. -/
theorem c5_output_naming_witness :
    ((PDFExtractor.mk 20).extractSinglePage envClean "doc.pdf" "." "doc" 0 4).result =
      some (osPathJoin "." ("doc" ++ "_page" ++ natToString 1 ++ ".jpg")) ∧
    outputFilename "." "doc" 0 ≠ outputFilename "." "doc" 1 :=
  ⟨(c5_output_naming (PDFExtractor.mk 20) envClean "doc.pdf" "." "doc" 4 0
      (by decide)).1,
   (c5_output_naming (PDFExtractor.mk 20) envClean "doc.pdf" "." "doc" 4 0
      (by decide)).2 1 (by decide)⟩

/-- C6: when the source path does not reference an existing file,
`extract_pdf_pages` raises `FileNotFoundError` with the documented
message before anything else happens: the output directory is not
created, no page task is submitted or run, and no output path is
produced. -/
theorem c6_missing_input (x : PDFExtractor) (env : Env) (p : String)
    (o : Option String) (s : Nat) (ea : Bool) (w : Option Nat)
    (h : env.fileExists = false) :
    (x.extract_pdf_pages env p o s ea w).error =
      some (.fileNotFound ("PDF file not found: " ++ p)) ∧
    (x.extract_pdf_pages env p o s ea w).dirCreated = false ∧
    (x.extract_pdf_pages env p o s ea w).submitted = [] ∧
    (x.extract_pdf_pages env p o s ea w).outcomes = [] ∧
    (x.extract_pdf_pages env p o s ea w).images = [] := by
  refine ⟨?_, ?_, ?_, ?_, ?_⟩ <;> simp [PDFExtractor.extract_pdf_pages, h]

/-- C6 (witness): a missing file produces the `FileNotFoundError` result
with no directory creation and no submitted tasks. -/
theorem c6_missing_input_witness :
    ((PDFExtractor.mk 20).extract_pdf_pages envNoFile "gone.pdf" none 4 true none).error =
      some (.fileNotFound ("PDF file not found: " ++ "gone.pdf")) ∧
    ((PDFExtractor.mk 20).extract_pdf_pages envNoFile "gone.pdf" none 4 true none).dirCreated
      = false ∧
    ((PDFExtractor.mk 20).extract_pdf_pages envNoFile "gone.pdf" none 4 true none).submitted
      = [] :=
  ⟨(c6_missing_input (PDFExtractor.mk 20) envNoFile "gone.pdf" none 4 true none
      rfl).1,
   (c6_missing_input (PDFExtractor.mk 20) envNoFile "gone.pdf" none 4 true none
      rfl).2.1,
   (c6_missing_input (PDFExtractor.mk 20) envNoFile "gone.pdf" none 4 true none
      rfl).2.2.1⟩

/-- C7: when the `max_workers` argument is `None`, the pool used by
`extract_pdf_pages` is sized `min(32, max(1, multiprocessing.cpu_count()))`. -/
theorem c7_default_pool_size (x : PDFExtractor) (env : Env) (p : String)
    (o : Option String) (s : Nat) (ea : Bool)
    (hf : env.fileExists = true) (ho : env.probeOpenFails = false)
    (hl : env.probeLenFails = false) :
    (x.extract_pdf_pages env p o s ea none).poolSize =
      min 32 (max 1 env.cpuCount) :=
  run_poolSize x env p o s ea none hf ho hl

/-- C7 (witness): with 8 available processing units and no worker
argument, the pool size is `min 32 (max 1 8)`. -/
theorem c7_default_pool_size_witness :
    ((PDFExtractor.mk 20).extract_pdf_pages envClean "doc.pdf" none 4 true none).poolSize =
      min 32 (max 1 envClean.cpuCount) :=
  c7_default_pool_size (PDFExtractor.mk 20) envClean "doc.pdf" none 4 true
    rfl rfl rfl

/-- C8: if every submitted page task fails, `extract_pdf_pages` still
returns normally (no exception), with the empty list, and logs the
"No images were extracted" warning. -/
theorem c8_all_pages_fail (x : PDFExtractor) (env : Env) (p : String)
    (o : Option String) (s : Nat) (ea : Bool) (w : Option Nat)
    (hf : env.fileExists = true) (ho : env.probeOpenFails = false)
    (hl : env.probeLenFails = false)
    (hall : ∀ i ∈ (x.extract_pdf_pages env p o s ea w).submitted,
      pageTaskFails env i = true) :
    (x.extract_pdf_pages env p o s ea w).images = [] ∧
    (x.extract_pdf_pages env p o s ea w).warned = true ∧
    (x.extract_pdf_pages env p o s ea w).error = none := by
  have himg : (x.extract_pdf_pages env p o s ea w).images = [] := by
    rw [run_images x env p o s ea w hf ho hl]
    have hflt : (if ea then List.range env.pageCount else [0]).filter
        (fun i => !pageTaskFails env i) = [] := by
      apply List.filter_eq_nil_iff.mpr
      intro a ha
      have hfa := hall a
        (by rw [run_submitted x env p o s ea w hf ho hl]; exact ha)
      simp [hfa]
    rw [hflt]
    rfl
  refine ⟨himg, ?_, run_error_none x env p o s ea w hf ho hl⟩
  rw [run_warned x env p o s ea w hf ho hl, himg]
  rfl

/-- C8 (witness): a 2-page document where both pages fail to render
returns the empty list with the warning and no error. -/
theorem c8_all_pages_fail_witness :
    ((PDFExtractor.mk 20).extract_pdf_pages envAllFail "doc.pdf" none 4 true none).images
      = [] ∧
    ((PDFExtractor.mk 20).extract_pdf_pages envAllFail "doc.pdf" none 4 true none).warned
      = true ∧
    ((PDFExtractor.mk 20).extract_pdf_pages envAllFail "doc.pdf" none 4 true none).error
      = none :=
  c8_all_pages_fail (PDFExtractor.mk 20) envAllFail "doc.pdf" none 4 true none
    rfl rfl rfl (by decide)

/-- C9: on a document whose page count is 0 with `extract_all = false`,
`extract_pdf_pages` still submits the single task for page index 0; that
task's out-of-range page access raises inside the `try` block, is
caught, and yields the failure marker without propagating, so the call
returns the empty list with the warning and no exception. -/
theorem c9_zero_page_document (x : PDFExtractor) (env : Env) (p : String)
    (o : Option String) (s : Nat) (w : Option Nat)
    (hf : env.fileExists = true) (ho : env.probeOpenFails = false)
    (hl : env.probeLenFails = false) (hz : env.pageCount = 0) :
    (x.extract_pdf_pages env p o s false w).submitted = [0] ∧
    (x.extract_pdf_pages env p o s false w).outcomes =
      [x.extractSinglePage env p (resolvedOutputDir p o) (baseFilename p) 0 s] ∧
    (x.extractSinglePage env p (resolvedOutputDir p o) (baseFilename p) 0 s).result
      = none ∧
    (x.extractSinglePage env p (resolvedOutputDir p o) (baseFilename p) 0 s).raised
      = false ∧
    (x.extract_pdf_pages env p o s false w).error = none ∧
    (x.extract_pdf_pages env p o s false w).images = [] ∧
    (x.extract_pdf_pages env p o s false w).warned = true := by
  have hfail : pageTaskFails env 0 = true := by
    simp [pageTaskFails, hz]
  have himg : (x.extract_pdf_pages env p o s false w).images = [] := by
    rw [run_images x env p o s false w hf ho hl]
    simp [hfail]
  refine ⟨?_, ?_, ?_, extractSinglePage_raised x env p
    (resolvedOutputDir p o) (baseFilename p) 0 s,
    run_error_none x env p o s false w hf ho hl, himg, ?_⟩
  · rw [run_submitted x env p o s false w hf ho hl]
    rfl
  · rw [run_outcomes x env p o s false w hf ho hl]
    rfl
  · rw [extractSinglePage_result]
    simp [hfail]
  · rw [run_warned x env p o s false w hf ho hl, himg]
    rfl

/-- C9 (witness): a zero-page document with `extract_all = false` yields
one submitted task, a `None` task result, and an empty, warned,
error-free call result. -/
theorem c9_zero_page_document_witness :
    ((PDFExtractor.mk 20).extract_pdf_pages envEmpty "doc.pdf" none 4 false none).submitted
      = [0] ∧
    ((PDFExtractor.mk 20).extractSinglePage envEmpty "doc.pdf"
      (resolvedOutputDir "doc.pdf" none) (baseFilename "doc.pdf") 0 4).result = none ∧
    ((PDFExtractor.mk 20).extract_pdf_pages envEmpty "doc.pdf" none 4 false none).images
      = [] ∧
    ((PDFExtractor.mk 20).extract_pdf_pages envEmpty "doc.pdf" none 4 false none).warned
      = true :=
  ⟨(c9_zero_page_document (PDFExtractor.mk 20) envEmpty "doc.pdf" none 4 none
      rfl rfl rfl rfl).1,
   (c9_zero_page_document (PDFExtractor.mk 20) envEmpty "doc.pdf" none 4 none
      rfl rfl rfl rfl).2.2.1,
   (c9_zero_page_document (PDFExtractor.mk 20) envEmpty "doc.pdf" none 4 none
      rfl rfl rfl rfl).2.2.2.2.2.1,
   (c9_zero_page_document (PDFExtractor.mk 20) envEmpty "doc.pdf" none 4 none
      rfl rfl rfl rfl).2.2.2.2.2.2⟩

/-- C10: the module-level convenience function `extract_pdf_pages`
returns exactly the same result (and propagates exactly the same
exceptions) as constructing a `PDFExtractor` with the default log level
and calling its method with the same arguments; moreover the result is
independent of the log level the extractor was constructed with. -/
theorem c10_module_wrapper (env : Env) (p : String) (o : Option String)
    (s : Nat) (ea : Bool) (w : Option Nat) :
    extract_pdf_pages env p o s ea w =
      (PDFExtractor.mk loggingINFO).extract_pdf_pages env p o s ea w ∧
    ∀ lvl : Nat, (PDFExtractor.mk lvl).extract_pdf_pages env p o s ea w =
      extract_pdf_pages env p o s ea w :=
  ⟨rfl, fun _ => rfl⟩
